import Mathlib

/-!
# Verification of the scraping_brasil document-validation subsystem

Shallow embedding of the document validation / deduplication / storage
layer of the `scraping_brasil` repository:

* `src/scraper/validators.py` — `InputSanitizer`, `InputValidator`,
  `DocumentMetadata`, `DocumentValidator`;
* `src/storage/mock_drive_manager.py` — `MockDriveManager`;
* `src/storage/drive_factory.py` — `DriveFactory`.

Python strings are modelled as `String`/`List Char`, byte strings as
`List Nat` (each entry < 256), machine state as explicit records that
are threaded through the operations that mutate them.
-/

set_option maxRecDepth 10000

namespace ScrapingBrasil

/-! ## Python text primitives

Whitespace / control-character predicates used by `InputSanitizer` and by
Python `str.strip`, re `\s` on `str` patterns. -/

/-- Characters matched by Python's `\s` regex class on `str` (equivalently
`str.isspace`): ASCII whitespace plus the Unicode whitespace code points. -/
def isPySpace (c : Char) : Bool :=
  c.toNat == 0x20 || c.toNat == 0x09 || c.toNat == 0x0a || c.toNat == 0x0d ||
  c.toNat == 0x0b || c.toNat == 0x0c ||
  (0x1c ≤ c.toNat && c.toNat ≤ 0x1f) || c.toNat == 0x85 || c.toNat == 0xa0 ||
  c.toNat == 0x1680 || (0x2000 ≤ c.toNat && c.toNat ≤ 0x200a) ||
  c.toNat == 0x2028 || c.toNat == 0x2029 || c.toNat == 0x202f ||
  c.toNat == 0x205f || c.toNat == 0x3000

/-- Python `str.strip()` with no argument: drop whitespace from both ends. -/
def pyStrip (l : List Char) : List Char :=
  ((l.dropWhile isPySpace).reverse.dropWhile isPySpace).reverse

/-- Characters removed by `InputSanitizer.sanitize_text`'s first substitution:
the regex class `[\x00-\x08\x0b\x0c\x0e-\x1f\x7f-\x9f]`. -/
def isSanitizedCtrl (c : Char) : Bool :=
  c.toNat ≤ 0x08 || c.toNat == 0x0b || c.toNat == 0x0c ||
  (0x0e ≤ c.toNat && c.toNat ≤ 0x1f) || (0x7f ≤ c.toNat && c.toNat ≤ 0x9f)

/-- `re.sub(r'\s+', ' ', text)`: collapse each maximal whitespace run to a
single ASCII space. -/
def collapseSpace : List Char → List Char
  | [] => []
  | [c] => if isPySpace c then [' '] else [c]
  | c₁ :: c₂ :: cs =>
    if isPySpace c₁ && isPySpace c₂ then collapseSpace (c₂ :: cs)
    else (if isPySpace c₁ then ' ' else c₁) :: collapseSpace (c₂ :: cs)

/-- `InputSanitizer.sanitize_text`: remove control characters, collapse
whitespace runs, strip the ends; empty (falsy) input yields `""`. -/
def sanitize_text (text : String) : String :=
  if text = "" then ""
  else
    ⟨pyStrip (collapseSpace ((text.toList.filter (fun c => !isSanitizedCtrl c))))⟩

/-! ## `InputValidator.is_valid_date`

`datetime.strptime(date_str, '%Y-%m-%d')`: CPython's `_strptime` compiles
the format to the regex `(?P<Y>\d\d\d\d)-(?P<m>1[0-2]|0[1-9]|[1-9])-`
`(?P<d>3[01]|[12]\d|0[1-9]|[1-9])`, requires the match to consume the whole
string, and then builds a `date`, which rejects day numbers beyond the
month's length and the year 0. -/

def isDigit (c : Char) : Bool := '0' ≤ c && c ≤ '9'

def digitVal (c : Char) : Nat := c.toNat - '0'.toNat

/-- Gregorian leap-year rule used by `datetime.date`. -/
def isLeapYear (y : Nat) : Bool :=
  y % 4 == 0 && (y % 100 != 0 || y % 400 == 0)

/-- Number of days in a month as `datetime.date` enforces it. -/
def daysInMonth (y m : Nat) : Nat :=
  if m == 2 then (if isLeapYear y then 29 else 28)
  else if m == 4 || m == 6 || m == 9 || m == 11 then 30
  else 31

/-- The month alternatives `1[0-2] | 0[1-9] | [1-9]`, tried in regex order
with backtracking: each alternative is paired with the remaining input, and
`k` (the parse of the rest of the string) decides whether it survives. -/
def matchMonth (l : List Char) (k : Nat → List Char → Option (Nat × Nat × Nat)) :
    Option (Nat × Nat × Nat) :=
  (match l with
   | c₁ :: c₂ :: rest =>
     if c₁ == '1' && '0' ≤ c₂ && c₂ ≤ '2' then k (10 + digitVal c₂) rest else none
   | _ => none) <|>
  (match l with
   | c₁ :: c₂ :: rest =>
     if c₁ == '0' && '1' ≤ c₂ && c₂ ≤ '9' then k (digitVal c₂) rest else none
   | _ => none) <|>
  (match l with
   | c₁ :: rest => if '1' ≤ c₁ && c₁ ≤ '9' then k (digitVal c₁) rest else none
   | _ => none)

/-- The day alternatives `3[01] | [12]\d | 0[1-9] | [1-9]`, in regex order. -/
def matchDay (l : List Char) (k : Nat → List Char → Option (Nat × Nat × Nat)) :
    Option (Nat × Nat × Nat) :=
  (match l with
   | c₁ :: c₂ :: rest =>
     if c₁ == '3' && '0' ≤ c₂ && c₂ ≤ '1' then k (30 + digitVal c₂) rest else none
   | _ => none) <|>
  (match l with
   | c₁ :: c₂ :: rest =>
     if ('1' ≤ c₁ && c₁ ≤ '2') && isDigit c₂ then k (digitVal c₁ * 10 + digitVal c₂) rest
     else none
   | _ => none) <|>
  (match l with
   | c₁ :: c₂ :: rest =>
     if c₁ == '0' && '1' ≤ c₂ && c₂ ≤ '9' then k (digitVal c₂) rest else none
   | _ => none) <|>
  (match l with
   | c₁ :: rest => if '1' ≤ c₁ && c₁ ≤ '9' then k (digitVal c₁) rest else none
   | _ => none)

/-- Parse a `%Y-%m-%d` string into `(year, month, day)` exactly as
`datetime.strptime` followed by `datetime.date` construction does; `none`
models the `ValueError`. -/
def parseDate (s : String) : Option (Nat × Nat × Nat) :=
  match s.toList with
  | y₁ :: y₂ :: y₃ :: y₄ :: '-' :: rest =>
    if isDigit y₁ && isDigit y₂ && isDigit y₃ && isDigit y₄ then
      let y := digitVal y₁ * 1000 + digitVal y₂ * 100 + digitVal y₃ * 10 + digitVal y₄
      matchMonth rest (fun m rest₂ =>
        match rest₂ with
        | '-' :: rest₃ =>
          matchDay rest₃ (fun d rest₄ =>
            match rest₄ with
            | [] =>
              if 1 ≤ y && 1 ≤ d && d ≤ daysInMonth y m then some (y, m, d) else none
            | _ => none)
        | _ => none)
    else none
  | _ => none

/-- `InputValidator.is_valid_date`: empty is falsy, otherwise the string must
parse with `strptime('%Y-%m-%d')`. -/
def is_valid_date (date_str : String) : Bool :=
  if date_str = "" then false else (parseDate date_str).isSome

/-! ## `InputValidator.is_valid_md5`

`re.match(r'^[a-fA-F0-9]{32}$', checksum)`: 32 hex characters anchored at the
start; `$` also matches just before a single final newline. -/

def isHexDigit (c : Char) : Bool :=
  isDigit c || ('a' ≤ c && c ≤ 'f') || ('A' ≤ c && c ≤ 'F')

def is_valid_md5 (checksum : String) : Bool :=
  if checksum = "" then false
  else
    let l := checksum.toList
    let hex := l.take 32
    let rest := l.drop 32
    hex.length == 32 && hex.all isHexDigit && (rest == [] || rest == ['\n'])

/-! ## `InputValidator.is_valid_url`

`urlparse(url)` followed by `all([result.scheme, result.netloc])`, with any
exception mapped to `False`.  The split is modelled after CPython's
`urllib.parse.urlsplit` (3.10 line): tab/CR/LF bytes are removed, a scheme is
recognised when the text before the first `:` is non-empty and made of scheme
characters, a netloc is the run after `//` up to `/`, `?` or `#`, and a
netloc containing `[` without `]` (or vice versa) raises `ValueError`, which
`is_valid_url` catches and turns into `False`.  (The non-ASCII NFKC netloc
check is modelled as passing, as it does for all ASCII inputs.) -/

def isSchemeChar (c : Char) : Bool :=
  ('a' ≤ c && c ≤ 'z') || ('A' ≤ c && c ≤ 'Z') || isDigit c ||
  c == '+' || c == '-' || c == '.'

def isNetlocDelim (c : Char) : Bool := c == '/' || c == '?' || c == '#'

def is_valid_url (url : String) : Bool :=
  if url = "" then false
  else
    let l := url.toList.filter (fun c => !(c == '\t' || c == '\r' || c == '\n'))
    let schemeAndRest : List Char × List Char :=
      match l.findIdx? (fun c => c == ':') with
      | some i =>
        if 0 < i && (l.take i).all isSchemeChar then (l.take i, l.drop (i + 1))
        else ([], l)
      | none => ([], l)
    match schemeAndRest with
    | (scheme, rest) =>
      match rest with
      | '/' :: '/' :: rest₂ =>
        let netloc := rest₂.takeWhile (fun c => !isNetlocDelim c)
        if (netloc.contains '[' && !netloc.contains ']') ||
           (netloc.contains ']' && !netloc.contains '[') then false
        else !scheme.isEmpty && !netloc.isEmpty
      | _ => false

/-! ## `DocumentMetadata`

The dataclass together with its `__post_init__` pipeline
(`_validate_and_sanitize` then `_calculate_quality_score`).  A constructed
record always comes out of `mkDocumentMetadata`, which plays the role of the
dataclass constructor.  The quality score only ever takes integer values, so
it is modelled as `Int`. -/

structure DocumentMetadata where
  id : String
  title : String
  date : String
  source : String
  document_type : String
  url : String
  file_size : Option Int
  md5_checksum : Option String
  scraped_at : Option String
  validation_errors : List String
  quality_score : Int
deriving DecidableEq, Repr

/-- Python truthiness of an `Optional[str]`: `None` and `""` are falsy. -/
def optStrTruthy : Option String → Bool
  | none => false
  | some s => s ≠ ""

/-- The file-size clause of `_validate_and_sanitize`:
`file_size is not None and file_size < 0`. -/
def fileSizeError : Option Int → List String
  | some n => if n < 0 then ["Invalid file size: " ++ toString n] else []
  | none => []

/-- The file-size clause of `_calculate_quality_score`:
`if self.file_size and self.file_size > 0`. -/
def fileSizePoints : Option Int → Int
  | some n => if n ≠ 0 ∧ 0 < n then 10 else 0
  | none => 0

/-- The `validation_errors` accumulated by `_validate_and_sanitize`, in
source order, over the already-sanitized `id`/`title` and the raw remaining
fields. -/
def validationErrors (id' title' date source url : String)
    (file_size : Option Int) (md5_checksum : Option String) : List String :=
  (if id' = "" ∨ (pyStrip id'.toList).length = 0 then
    ["Document ID cannot be empty"] else []) ++
  (if title' = "" ∨ (pyStrip title'.toList).length < 5 then
    ["Document title too short (minimum 5 characters)"] else []) ++
  (if ¬ is_valid_date date then ["Invalid date format: " ++ date] else []) ++
  (if source ≠ "camara" ∧ source ≠ "senado" then
    ["Invalid source: " ++ source] else []) ++
  (if ¬ is_valid_url url then ["Invalid URL: " ++ url] else []) ++
  fileSizeError file_size ++
  (if optStrTruthy md5_checksum ∧ ¬ is_valid_md5 (md5_checksum.getD "") then
    ["Invalid MD5 checksum format: " ++ md5_checksum.getD ""] else [])

/-- `_calculate_quality_score` over the sanitized fields and the error list:
50 points of basic fields, 30 of optional fields, an error penalty of 5 per
error capped at 20, a 20-point bonus at ≥ 80 with no errors, clamped to
at most 100. -/
def qualityScore (id' title' date url : String) (file_size : Option Int)
    (md5_checksum scraped_at : Option String) (errs : List String) : Int :=
  let base : Int :=
    (if id' ≠ "" ∧ 0 < (pyStrip id'.toList).length then 15 else 0) +
    (if title' ≠ "" ∧ 5 ≤ (pyStrip title'.toList).length then 15 else 0) +
    (if is_valid_date date then 10 else 0) +
    (if is_valid_url url then 10 else 0)
  let opt : Int :=
    fileSizePoints file_size +
    (if optStrTruthy md5_checksum ∧ is_valid_md5 (md5_checksum.getD "") then
      10 else 0) +
    (if optStrTruthy scraped_at then 10 else 0)
  let penalty : Int := min 20 (5 * (errs.length : Int))
  let afterPenalty : Int := max 0 (base + opt - penalty)
  let afterBonus : Int :=
    if 80 ≤ afterPenalty ∧ errs.length = 0 then afterPenalty + 20 else afterPenalty
  min 100 afterBonus

/-- The dataclass constructor with `__post_init__`: sanitize `id`, `title`
and `document_type`, accumulate validation errors, compute the quality
score. -/
def mkDocumentMetadata (id title date source document_type url : String)
    (file_size : Option Int) (md5_checksum : Option String)
    (scraped_at : Option String) : DocumentMetadata :=
  let id' := sanitize_text id
  let title' := sanitize_text title
  let dt' := sanitize_text document_type
  let errs := validationErrors id' title' date source url file_size md5_checksum
  { id := id', title := title', date := date, source := source,
    document_type := dt', url := url, file_size := file_size,
    md5_checksum := md5_checksum, scraped_at := scraped_at,
    validation_errors := errs,
    quality_score := qualityScore id' title' date url file_size md5_checksum
      scraped_at errs }

/-- `DocumentMetadata.is_valid`: no validation errors and score at least
50. -/
def DocumentMetadata.is_valid (m : DocumentMetadata) : Bool :=
  m.validation_errors.length == 0 && decide ((50 : Int) ≤ m.quality_score)

/-! ## `DocumentValidator`

The registry `existing_documents` is a `dict` keyed by document id; a Python
3.7+ `dict` preserves insertion order and in-place update keeps a key's
position, so it is modelled as an association list with unique keys where
`regInsert` overwrites in place or appends.  The cache file mirrors the
registry after every `_save_metadata_cache`; the validator state carries
both so that frame properties about the file are expressible. -/

abbrev Registry := List (String × DocumentMetadata)

/-- `dict.__getitem__` / `in`: first (unique) binding of the key. -/
def regLookup : Registry → String → Option DocumentMetadata
  | [], _ => none
  | (k, v) :: rest, key => if k = key then some v else regLookup rest key

/-- `dict.values()` in insertion order. -/
def regValues (reg : Registry) : List DocumentMetadata :=
  reg.map Prod.snd

/-- `dict.__setitem__`: overwrite in place when the key exists, append
otherwise. -/
def regInsert (reg : Registry) (key : String) (v : DocumentMetadata) : Registry :=
  if (regLookup reg key).isSome then
    reg.map (fun p => if p.1 = key then (key, v) else p)
  else reg ++ [(key, v)]

/-- The tier-2 loop of `is_duplicate`: first registry value with the same
`md5_checksum` and the same `source` as the candidate. -/
def findChecksumMatch (md5 : Option String) (source : String) :
    List DocumentMetadata → Option DocumentMetadata
  | [] => none
  | e :: rest =>
    if e.md5_checksum == md5 && e.source == source then some e
    else findChecksumMatch md5 source rest

/-- The tier-3 loop of `is_duplicate`: first registry value with identical
`title`, `date` and `source`. -/
def findTitleDateMatch (title date source : String) :
    List DocumentMetadata → Option DocumentMetadata
  | [] => none
  | e :: rest =>
    if e.title == title && e.date == date && e.source == source then some e
    else findTitleDateMatch title date source rest

/-- `DocumentValidator.is_duplicate`: id lookup, then (when the candidate's
checksum is truthy) checksum+source scan, then title+date+source scan. -/
def is_duplicate (reg : Registry) (document : DocumentMetadata) :
    Bool × Option DocumentMetadata :=
  match regLookup reg document.id with
  | some existing => (true, some existing)
  | none =>
    match (if optStrTruthy document.md5_checksum then
             findChecksumMatch document.md5_checksum document.source (regValues reg)
           else none) with
    | some e => (true, some e)
    | none =>
      match findTitleDateMatch document.title document.date document.source
          (regValues reg) with
      | some e => (true, some e)
      | none => (false, none)

/-- Lexicographic order on `(year, month, day)` triples, i.e. `date.__le__`. -/
def dateLe (a b : Nat × Nat × Nat) : Bool :=
  a.1 < b.1 || (a.1 == b.1 && (a.2.1 < b.2.1 ||
    (a.2.1 == b.2.1 && a.2.2 ≤ b.2.2)))

/-- `DocumentValidator.is_date_in_range`: parse the three dates; any
`ValueError` yields `False`; otherwise the inclusive bounds check. -/
def is_date_in_range (document_date start_date end_date : String) : Bool :=
  match parseDate document_date, parseDate start_date, parseDate end_date with
  | some d, some s, some e => dateLe s d && dateLe d e
  | _, _, _ => false

/-- Validator state: the in-memory registry plus the JSON cache file
contents (which `_save_metadata_cache` keeps equal to the registry). -/
structure ValidatorState where
  existing_documents : Registry
  cache_file : Registry
deriving DecidableEq, Repr

/-- `DocumentValidator.add_document`: stamp `scraped_at` with the current
time, insert by id, rewrite the cache file.  Returns the new state and the
stamped document (the Python method mutates its argument). -/
def add_document (st : ValidatorState) (now : String)
    (document : DocumentMetadata) : ValidatorState × DocumentMetadata :=
  let doc' := { document with scraped_at := some now }
  let reg' := regInsert st.existing_documents document.id doc'
  ({ existing_documents := reg', cache_file := reg' }, doc')

/-- `DocumentValidator.update_document`: like `add_document` but only when
the id is already registered; otherwise only a warning is logged. -/
def update_document (st : ValidatorState) (now : String)
    (document : DocumentMetadata) : ValidatorState × DocumentMetadata :=
  if (regLookup st.existing_documents document.id).isSome then
    let doc' := { document with scraped_at := some now }
    let reg' := regInsert st.existing_documents document.id doc'
    ({ existing_documents := reg', cache_file := reg' }, doc')
  else (st, document)

/-- The `for doc in documents` loop of `filter_new_documents`: skip when out
of range, skip when `is_dup and existing_doc`, keep otherwise. -/
def filterLoop (st : ValidatorState) (start_date end_date : String) :
    List DocumentMetadata → List DocumentMetadata
  | [] => []
  | doc :: rest =>
    if ¬ is_date_in_range doc.date start_date end_date then
      filterLoop st start_date end_date rest
    else
      match is_duplicate st.existing_documents doc with
      | (true, some _) => filterLoop st start_date end_date rest
      | _ => doc :: filterLoop st start_date end_date rest

/-- `DocumentValidator.filter_new_documents`: a read-only pass over the
state; returns the (unchanged) state and the surviving documents in input
order. -/
def filter_new_documents (st : ValidatorState) (documents : List DocumentMetadata)
    (start_date end_date : String) : ValidatorState × List DocumentMetadata :=
  (st, filterLoop st start_date end_date documents)

/-! ## `bytes.decode('utf-8')`

Strict UTF-8 decoding: rejects truncated sequences, overlong encodings,
surrogate code points and values above `U+10FFFF`, exactly the sequences
CPython's strict `utf-8` codec rejects with `UnicodeDecodeError`. -/

/-- Decode one scalar value from the front of a byte list; `none` models a
`UnicodeDecodeError`. -/
def utf8Step : List Nat → Option (Char × List Nat)
  | [] => none
  | b :: rest =>
    if b < 0x80 then some (Char.ofNat b, rest)
    else if b < 0xc2 then none
    else if b < 0xe0 then
      match rest with
      | b₁ :: r =>
        if 0x80 ≤ b₁ && b₁ < 0xc0 then
          some (Char.ofNat ((b - 0xc0) * 64 + (b₁ - 0x80)), r)
        else none
      | [] => none
    else if b < 0xf0 then
      match rest with
      | b₁ :: b₂ :: r =>
        let lo := if b == 0xe0 then 0xa0 else 0x80
        let hi := if b == 0xed then 0x9f else 0xbf
        if lo ≤ b₁ && b₁ ≤ hi && 0x80 ≤ b₂ && b₂ < 0xc0 then
          some (Char.ofNat ((b - 0xe0) * 4096 + (b₁ - 0x80) * 64 + (b₂ - 0x80)), r)
        else none
      | _ => none
    else if b < 0xf5 then
      match rest with
      | b₁ :: b₂ :: b₃ :: r =>
        let lo := if b == 0xf0 then 0x90 else 0x80
        let hi := if b == 0xf4 then 0x8f else 0xbf
        if lo ≤ b₁ && b₁ ≤ hi && 0x80 ≤ b₂ && b₂ < 0xc0 && 0x80 ≤ b₃ && b₃ < 0xc0 then
          some (Char.ofNat ((b - 0xf0) * 262144 + (b₁ - 0x80) * 4096 +
            (b₂ - 0x80) * 64 + (b₃ - 0x80)), r)
        else none
      | _ => none
    else none

def utf8DecodeAux : Nat → List Nat → Option (List Char)
  | _, [] => some []
  | 0, _ :: _ => none
  | fuel + 1, bs =>
    match utf8Step bs with
    | some (c, rest) => (utf8DecodeAux fuel rest).map (c :: ·)
    | none => none

/-- `bytes.decode('utf-8')` (strict).  `utf8Step` always consumes at least
one byte, so `bs.length` steps of fuel decode the whole input. -/
def utf8Decode (bs : List Nat) : Option (List Char) :=
  utf8DecodeAux bs.length bs

/-! ## `json.loads` (success or failure only)

Recognizer for the strings accepted by CPython's `json.loads` with default
arguments: JSON values per the pure-Python scanner, including the
non-standard `NaN` / `Infinity` / `-Infinity` constants, strict strings
(no raw control characters, the eight escapes plus `\uXXXX`), the number
regex `(-?(?:0|[1-9]\d*))(\.\d+)?([eE][-+]?\d+)?`, and a leading-BOM
rejection.  Whitespace between tokens is `[ \t\n\r]*`.  The recognizer is
fuel-indexed; every recursive call consumes fuel and at most a bounded
number of calls happen per consumed character, so `8 * n + 64` fuel decides
any input of length `n`. -/

def isJsonWS (c : Char) : Bool :=
  c == ' ' || c == '\t' || c == '\n' || c == '\r'

def skipJsonWS (l : List Char) : List Char :=
  l.dropWhile isJsonWS

/-- `\uXXXX`: exactly four hex digits. -/
def parseHex4 : List Char → Option (List Char)
  | a :: b :: c :: d :: r =>
    if isHexDigit a && isHexDigit b && isHexDigit c && isHexDigit d then some r
    else none
  | _ => none

/-- Continue a string literal after its opening quote (`py_scanstring`,
`strict=True`): stop at `"`, process escapes, reject raw control characters
below `0x20`. -/
def jsonStringRest : Nat → List Char → Option (List Char)
  | 0, _ => none
  | _ + 1, [] => none
  | fuel + 1, c :: rest =>
    if c == '"' then some rest
    else if c == '\\' then
      match rest with
      | e :: r₂ =>
        if e == 'u' then (parseHex4 r₂).bind (jsonStringRest fuel)
        else if e == '"' || e == '\\' || e == '/' || e == 'b' || e == 'f' ||
            e == 'n' || e == 'r' || e == 't' then jsonStringRest fuel r₂
        else none
      | [] => none
    else if c.toNat < 0x20 then none
    else jsonStringRest fuel rest

/-- The JSON number token, following the scanner's regex: the regex match is
maximal but may leave trailing input for the caller to reject. -/
def parseJsonNumber (l : List Char) : Option (List Char) := do
  let l₁ := match l with | '-' :: r => r | _ => l
  let afterInt ←
    match l₁ with
    | '0' :: r => some r
    | c :: r => if '1' ≤ c && c ≤ '9' then some (r.dropWhile isDigit) else none
    | [] => none
  let afterFrac :=
    match afterInt with
    | '.' :: r => if (r.headD ' ').isDigit then r.dropWhile isDigit else afterInt
    | _ => afterInt
  let afterExp :=
    match afterFrac with
    | e :: r =>
      if e == 'e' || e == 'E' then
        let r₁ := match r with | s :: r₂ => if s == '+' || s == '-' then r₂ else r
                               | [] => r
        if (r₁.headD ' ').isDigit then r₁.dropWhile isDigit else afterFrac
      else afterFrac
    | [] => afterFrac
  pure afterExp

mutual

/-- `_scan_once`: dispatch on the first character, in the scanner's order. -/
def jsonValue : Nat → List Char → Option (List Char)
  | 0, _ => none
  | fuel + 1, l =>
    match l with
    | '"' :: rest => jsonStringRest fuel rest
    | '{' :: rest => jsonObjectRest fuel rest
    | '[' :: rest => jsonArrayRest fuel rest
    | _ =>
      if ['n', 'u', 'l', 'l'].isPrefixOf l then some (l.drop 4)
      else if ['t', 'r', 'u', 'e'].isPrefixOf l then some (l.drop 4)
      else if ['f', 'a', 'l', 's', 'e'].isPrefixOf l then some (l.drop 5)
      else
        match parseJsonNumber l with
        | some r => some r
        | none =>
          if ['N', 'a', 'N'].isPrefixOf l then some (l.drop 3)
          else if ['I', 'n', 'f', 'i', 'n', 'i', 't', 'y'].isPrefixOf l then
            some (l.drop 8)
          else if ['-', 'I', 'n', 'f', 'i', 'n', 'i', 't', 'y'].isPrefixOf l then
            some (l.drop 9)
          else none

/-- The body of an object after `{`: `ws ('}' | members '}')`. -/
def jsonObjectRest : Nat → List Char → Option (List Char)
  | 0, _ => none
  | fuel + 1, l =>
    match skipJsonWS l with
    | '}' :: r => some r
    | '"' :: r => jsonMembers fuel r
    | _ => none

/-- Members of an object, entered just after the opening quote of a key:
`string ws ':' ws value ws (',' ws string … | '}')`. -/
def jsonMembers : Nat → List Char → Option (List Char)
  | 0, _ => none
  | fuel + 1, l => do
    let r₁ ← jsonStringRest fuel l
    match skipJsonWS r₁ with
    | ':' :: r₂ => do
      let r₃ ← jsonValue fuel (skipJsonWS r₂)
      match skipJsonWS r₃ with
      | '}' :: r₄ => some r₄
      | ',' :: r₄ =>
        match skipJsonWS r₄ with
        | '"' :: r₅ => jsonMembers fuel r₅
        | _ => none
      | _ => none
    | _ => none

/-- The body of an array after `[`: `ws (']' | value ws (',' ws value ws)* ']')`. -/
def jsonArrayRest : Nat → List Char → Option (List Char)
  | 0, _ => none
  | fuel + 1, l =>
    match skipJsonWS l with
    | ']' :: r => some r
    | l₁ => do
      let r₁ ← jsonValue fuel l₁
      jsonArrayTail fuel r₁

/-- After an array element: `ws (']' | ',' ws value …)`. -/
def jsonArrayTail : Nat → List Char → Option (List Char)
  | 0, _ => none
  | fuel + 1, l =>
    match skipJsonWS l with
    | ']' :: r => some r
    | ',' :: r => do
      let r₁ ← jsonValue fuel (skipJsonWS r)
      jsonArrayTail fuel r₁
    | _ => none

end

/-- `json.loads` on a `str`: reject a leading BOM, skip surrounding
whitespace, scan one value, require the input to be exhausted. -/
def jsonLoads (chars : List Char) : Bool :=
  match chars with
  | c :: _ =>
    if c.toNat == 0xfeff then false
    else
      match jsonValue (8 * chars.length + 64) (skipJsonWS chars) with
      | some rest => (skipJsonWS rest).isEmpty
      | none => false
  | [] => false

/-! ## `DocumentValidator.validate_document_content` -/

/-- `b'%PDF-'`. -/
def pdfSig : List Nat := [0x25, 0x50, 0x44, 0x46, 0x2d]

/-- `b'%%EOF'`. -/
def eofMarker : List Nat := [0x25, 0x25, 0x45, 0x4f, 0x46]

/-- Python `in` on bytes: substring containment. -/
def containsSub (needle : List Nat) : List Nat → Bool
  | [] => decide (needle = [])
  | b :: rest => needle.isPrefixOf (b :: rest) || containsSub needle rest

/-- `content[-1024:]`: the trailing 1024 bytes (the whole content when
shorter). -/
def lastBytes (n : Nat) (l : List Nat) : List Nat :=
  l.drop (l.length - n)

/-- ASCII whitespace stripped by `bytes.strip()`. -/
def isAsciiWSByte (b : Nat) : Bool :=
  b == 0x20 || b == 0x09 || b == 0x0a || b == 0x0d || b == 0x0b || b == 0x0c

/-- `bytes.strip()`. -/
def bytesStrip (l : List Nat) : List Nat :=
  ((l.dropWhile isAsciiWSByte).reverse.dropWhile isAsciiWSByte).reverse

/-- `json.loads(content.decode('utf-8'))` succeeding, with
`UnicodeDecodeError` and `json.JSONDecodeError` folded into failure. -/
def jsonLoadsBytes (content : List Nat) : Bool :=
  match utf8Decode content with
  | some chars => jsonLoads chars
  | none => false

/-- `DocumentValidator.validate_document_content`: non-empty, exact size
when an expected size is given, `%%EOF` within the trailing 1KB for
PDF-signature content, and a successful parse for JSON-looking content. -/
def validate_document_content (content : List Nat)
    (expected_size : Option Nat) : Bool :=
  if content.isEmpty then false
  else if (match expected_size with
           | some n => content.length != n
           | none => false) then false
  else if pdfSig.isPrefixOf content then
    containsSub eofMarker (lastBytes 1024 content)
  else if [0x7b].isPrefixOf (bytesStrip content) ||
      [0x5b].isPrefixOf (bytesStrip content) then
    jsonLoadsBytes content
  else true

/-! ## MD5 (`hashlib.md5(...).hexdigest()`)

RFC 1321 MD5 over a byte list, producing the lowercase hex digest.  Words
are `Nat`s kept below `2^32` by explicit reduction. -/

def w32 (x : Nat) : Nat := x % 4294967296

def rotl32 (x n : Nat) : Nat :=
  Nat.lor (w32 (x * 2 ^ n)) (x / 2 ^ (32 - n))

/-- The 64 sine-derived constants of RFC 1321. -/
def md5K : List Nat :=
  [0xd76aa478, 0xe8c7b756, 0x242070db, 0xc1bdceee,
   0xf57c0faf, 0x4787c62a, 0xa8304613, 0xfd469501,
   0x698098d8, 0x8b44f7af, 0xffff5bb1, 0x895cd7be,
   0x6b901122, 0xfd987193, 0xa679438e, 0x49b40821,
   0xf61e2562, 0xc040b340, 0x265e5a51, 0xe9b6c7aa,
   0xd62f105d, 0x02441453, 0xd8a1e681, 0xe7d3fbc8,
   0x21e1cde6, 0xc33707d6, 0xf4d50d87, 0x455a14ed,
   0xa9e3e905, 0xfcefa3f8, 0x676f02d9, 0x8d2a4c8a,
   0xfffa3942, 0x8771f681, 0x6d9d6122, 0xfde5380c,
   0xa4beea44, 0x4bdecfa9, 0xf6bb4b60, 0xbebfbc70,
   0x289b7ec6, 0xeaa127fa, 0xd4ef3085, 0x04881d05,
   0xd9d4d039, 0xe6db99e5, 0x1fa27cf8, 0xc4ac5665,
   0xf4292244, 0x432aff97, 0xab9423a7, 0xfc93a039,
   0x655b59c3, 0x8f0ccc92, 0xffeff47d, 0x85845dd1,
   0x6fa87e4f, 0xfe2ce6e0, 0xa3014314, 0x4e0811a1,
   0xf7537e82, 0xbd3af235, 0x2ad7d2bb, 0xeb86d391]

/-- Per-round left-rotation amounts. -/
def md5S : List Nat :=
  [7, 12, 17, 22, 7, 12, 17, 22, 7, 12, 17, 22, 7, 12, 17, 22,
   5, 9, 14, 20, 5, 9, 14, 20, 5, 9, 14, 20, 5, 9, 14, 20,
   4, 11, 16, 23, 4, 11, 16, 23, 4, 11, 16, 23, 4, 11, 16, 23,
   6, 10, 15, 21, 6, 10, 15, 21, 6, 10, 15, 21, 6, 10, 15, 21]

def md5F (i b c d : Nat) : Nat :=
  if i < 16 then Nat.lor (Nat.land b c) (Nat.land (Nat.xor b 0xffffffff) d)
  else if i < 32 then Nat.lor (Nat.land d b) (Nat.land (Nat.xor d 0xffffffff) c)
  else if i < 48 then Nat.xor (Nat.xor b c) d
  else Nat.xor c (Nat.lor b (Nat.xor d 0xffffffff))

def md5G (i : Nat) : Nat :=
  if i < 16 then i
  else if i < 32 then (5 * i + 1) % 16
  else if i < 48 then (3 * i + 5) % 16
  else (7 * i) % 16

def md5Round (m : List Nat) (st : Nat × Nat × Nat × Nat) (i : Nat) :
    Nat × Nat × Nat × Nat :=
  match st with
  | (a, b, c, d) =>
    let f := w32 (md5F i b c d + a + md5K.getD i 0 + m.getD (md5G i) 0)
    (d, w32 (b + rotl32 f (md5S.getD i 0)), b, c)

/-- Group a 64-byte block into 16 little-endian 32-bit words. -/
def toWords : List Nat → List Nat
  | b₀ :: b₁ :: b₂ :: b₃ :: r =>
    (b₀ + 256 * b₁ + 65536 * b₂ + 16777216 * b₃) :: toWords r
  | _ => []

def md5Chunk (st : Nat × Nat × Nat × Nat) (block : List Nat) :
    Nat × Nat × Nat × Nat :=
  match (List.range 64).foldl (md5Round (toWords block)) st, st with
  | (a, b, c, d), (a₀, b₀, c₀, d₀) =>
    (w32 (a₀ + a), w32 (b₀ + b), w32 (c₀ + c), w32 (d₀ + d))

def md5Chunks : Nat → (Nat × Nat × Nat × Nat) → List Nat → Nat × Nat × Nat × Nat
  | 0, st, _ => st
  | _ + 1, st, [] => st
  | fuel + 1, st, bs => md5Chunks fuel (md5Chunk st (bs.take 64)) (bs.drop 64)

/-- MD5 padding: `0x80`, zeros to 56 mod 64, then the bit length as eight
little-endian bytes. -/
def md5Pad (msg : List Nat) : List Nat :=
  let L := msg.length
  let k := (120 - ((L + 1) % 64)) % 64
  let bitLen := (8 * L) % 18446744073709551616
  msg ++ [0x80] ++ List.replicate k 0 ++
    ((List.range 8).map (fun i => bitLen / 256 ^ i % 256))

def hexDigitChar (n : Nat) : Char :=
  if n < 10 then Char.ofNat (48 + n) else Char.ofNat (87 + n)

def byteToHex (b : Nat) : List Char := [hexDigitChar (b / 16), hexDigitChar (b % 16)]

def wordLEBytes (w : Nat) : List Nat :=
  [w % 256, w / 256 % 256, w / 65536 % 256, w / 16777216 % 256]

/-- `hashlib.md5(content).hexdigest()`. -/
def md5Hex (msg : List Nat) : String :=
  let padded := md5Pad msg
  match md5Chunks (padded.length / 64 + 1)
      (0x67452301, 0xefcdab89, 0x98badcfe, 0x10325476) padded with
  | (a, b, c, d) =>
    ⟨((wordLEBytes a ++ wordLEBytes b ++ wordLEBytes c ++ wordLEBytes d).map
        byteToHex).flatten⟩

/-! ## `MockDriveManager` (`src/storage/mock_drive_manager.py`)

The mock store keeps blobs under `files/` and an index `metadata['files']`
keyed by generated file id.  The state carries the index (with the stored
bytes standing in for the blob on disk) and the `next_id` counter; the
usage counters are irrelevant to the claims but kept for completeness.
`upload_file` is modelled for `bytes` content (the `str` and `Path` branches
only differ in how the bytes are produced). -/

/-- `DriveFileInfo` from `src/storage/drive_interface.py`. -/
structure DriveFileInfo where
  file_id : String
  name : String
  size : Nat
  created_time : String
  modified_time : String
  mime_type : String
  md5_checksum : String
deriving DecidableEq, Repr

/-- One entry of `metadata['files']`: the `DriveFileInfo` dictionary plus
`folder_id` and the stored content (standing in for `local_path`). -/
structure MockFileRecord where
  info : DriveFileInfo
  folder_id : String
  content : List Nat
deriving DecidableEq, Repr

structure MockDriveState where
  files : List (String × MockFileRecord)
  next_id : Nat
  uploads : Nat
  downloads : Nat
  deletes : Nat
  total_size : Int
  file_count : Int
deriving DecidableEq, Repr

/-- A freshly constructed `MockDriveManager` over an empty storage
directory. -/
def MockDriveState.initial : MockDriveState :=
  { files := [], next_id := 1, uploads := 0, downloads := 0, deletes := 0,
    total_size := 0, file_count := 0 }

/-- Python `folder_id or 'root'`. -/
def folderOrRoot : Option String → String
  | none => "root"
  | some s => if s = "" then "root" else s

/-- Python `mime_type or "application/octet-stream"`. -/
def mimeOrDefault : Option String → String
  | none => "application/octet-stream"
  | some s => if s = "" then "application/octet-stream" else s

/-- `MockDriveManager.upload_file` on `bytes` content: generate
`mock_file_<next_id>`, store the bytes, compute the MD5 of the stored file,
record the metadata under the (fresh) id, bump the counters. -/
def upload_file (st : MockDriveState) (now : String) (file_content : List Nat)
    (filename : String) (folder_id : Option String) (mime_type : Option String) :
    MockDriveState × DriveFileInfo :=
  let file_id := "mock_file_" ++ toString st.next_id
  let file_size := file_content.length
  let info : DriveFileInfo :=
    { file_id := file_id, name := filename, size := file_size,
      created_time := now, modified_time := now,
      mime_type := mimeOrDefault mime_type,
      md5_checksum := md5Hex file_content }
  let record : MockFileRecord :=
    { info := info, folder_id := folderOrRoot folder_id, content := file_content }
  ({ files := st.files ++ [(file_id, record)],
     next_id := st.next_id + 1,
     uploads := st.uploads + 1,
     downloads := st.downloads,
     deletes := st.deletes,
     total_size := st.total_size + file_size,
     file_count := st.file_count + 1 }, info)

/-- The `for file_id, file_data in self.metadata['files'].items()` loop of
`file_exists`. -/
def findByNameFolder (filename folder : String) :
    List (String × MockFileRecord) → Option DriveFileInfo
  | [] => none
  | (_, rec) :: rest =>
    if rec.info.name = filename ∧ rec.folder_id = folder then some rec.info
    else findByNameFolder filename folder rest

/-- `MockDriveManager.file_exists`: exact name + folder match, first hit in
insertion order, rebuilding the `DriveFileInfo` from the stored metadata. -/
def file_exists (st : MockDriveState) (filename : String)
    (folder_id : Option String) : Option DriveFileInfo :=
  findByNameFolder filename (folderOrRoot folder_id) st.files

/-! ## `DriveFactory` (`src/storage/drive_factory.py`)

The factory reads `settings` and the filesystem only through two facts:
whether the credentials file exists and whether a folder id is configured.
Exceptions become an `Except` error value. -/

structure FactoryConfig where
  app_mode : String
  credentials_file_exists : Bool
  folder_id_set : Bool
deriving DecidableEq, Repr

/-- Python `str.lower()`, modelled for the ASCII range (the mode strings the
factory compares against are ASCII). -/
def pyLowerChar (c : Char) : Char :=
  if 'A' ≤ c ∧ c ≤ 'Z' then Char.ofNat (c.toNat + 32) else c

def pyLower (s : String) : String :=
  ⟨s.toList.map pyLowerChar⟩

/-- The exceptions `create_drive_manager` can raise, by `except` arm. -/
inductive FactoryError where
  /-- The re-raised `ImportError("Real Drive manager not available: …")`. -/
  | notAvailable (msg : String)
  /-- The `Exception` from `_validate_drive_credentials`, re-raised as is. -/
  | credentialsNotFound (msg : String)
  /-- `ValueError("Invalid mode: …")`. -/
  | invalidMode (msg : String)
deriving DecidableEq, Repr

/-- The managers a successful call can return. -/
inductive DriveManagerKind where
  | mock
deriving DecidableEq, Repr

/-- `DriveFactory._create_real_drive_manager`: validate credentials (which
raises when the credentials file is missing, re-raised unchanged by the
generic handler), otherwise hit the `ImportError` stub, re-raised as the
"not available" error. -/
def create_real_drive_manager (cfg : FactoryConfig) :
    Except FactoryError DriveManagerKind :=
  if cfg.credentials_file_exists then
    .error (.notAvailable
      ("Real Drive manager not available: " ++
        "RealDriveManager not yet implemented - this is expected in Phase 1"))
  else
    .error (.credentialsNotFound "Google Drive credentials file not found")

/-- `DriveFactory.create_drive_manager`: default the mode from settings,
treat a falsy mode as `'mock'`, dispatch, and in `'auto'` mode fall back to
the mock manager on any exception. -/
def create_drive_manager (cfg : FactoryConfig) (mode : Option String) :
    Except FactoryError DriveManagerKind :=
  let mode₀ := match mode with | none => cfg.app_mode | some m => m
  let mode₁ := if mode₀ = "" then "mock" else pyLower mode₀
  if mode₁ = "mock" then .ok .mock
  else if mode₁ = "real" then create_real_drive_manager cfg
  else if mode₁ = "auto" then
    match create_real_drive_manager cfg with
    | .ok m => .ok m
    | .error _ => .ok .mock
  else .error (.invalidMode ("Invalid mode: " ++ mode₁ ++
    ". Must be 'mock', 'real', or 'auto'"))

/-! ## General lemmas -/

theorem findChecksumMatch_eq_find? (md5 : Option String) (source : String)
    (l : List DocumentMetadata) :
    findChecksumMatch md5 source l =
      l.find? (fun e => e.md5_checksum == md5 && e.source == source) := by
  induction l with
  | nil => rfl
  | cons e rest ih =>
    simp only [findChecksumMatch, List.find?]
    cases h : (e.md5_checksum == md5 && e.source == source) <;> simp [h, ih]

theorem findTitleDateMatch_eq_find? (title date source : String)
    (l : List DocumentMetadata) :
    findTitleDateMatch title date source l =
      l.find? (fun e => e.title == title && e.date == date && e.source == source) := by
  induction l with
  | nil => rfl
  | cons e rest ih =>
    simp only [findTitleDateMatch, List.find?]
    cases h : (e.title == title && e.date == date && e.source == source) <;>
      simp [h, ih]

/-- `is_duplicate` never returns `True` without a matching entry, and never
an entry without `True`. -/
theorem is_duplicate_cases (reg : Registry) (doc : DocumentMetadata) :
    is_duplicate reg doc = (false, none) ∨
      ∃ e, is_duplicate reg doc = (true, some e) := by
  unfold is_duplicate
  rcases h₁ : regLookup reg doc.id with _ | e₁
  · rcases h₂ : (if optStrTruthy doc.md5_checksum then
        findChecksumMatch doc.md5_checksum doc.source (regValues reg)
      else none) with _ | e₂
    · rcases h₃ : findTitleDateMatch doc.title doc.date doc.source (regValues reg)
        with _ | e₃
      · exact Or.inl rfl
      · exact Or.inr ⟨e₃, rfl⟩
    · exact Or.inr ⟨e₂, rfl⟩
  · exact Or.inr ⟨e₁, rfl⟩

theorem filterLoop_eq_filter (st : ValidatorState) (s e : String)
    (docs : List DocumentMetadata) :
    filterLoop st s e docs =
      docs.filter (fun d =>
        is_date_in_range d.date s e && !(is_duplicate st.existing_documents d).1) := by
  induction docs with
  | nil => rfl
  | cons doc rest ih =>
    simp only [filterLoop, List.filter]
    by_cases hr : is_date_in_range doc.date s e
    · rcases is_duplicate_cases st.existing_documents doc with hd | ⟨e', hd⟩ <;>
        simp [hr, hd, ih]
    · simp [hr, ih]

/-! ## Sample documents for the batch-filtering claim -/

def sampleDoc (i d : String) : DocumentMetadata :=
  mkDocumentMetadata i ("Documento numero " ++ i) d "camara" "PL"
    ("http://example.com/doc/" ++ i) none none none

def sampleDoc1 : DocumentMetadata := sampleDoc "1" "2023-12-31"
def sampleDoc2 : DocumentMetadata := sampleDoc "2" "2024-01-15"
def sampleDoc3 : DocumentMetadata := sampleDoc "3" "2024-06-15"
def sampleDoc4 : DocumentMetadata := sampleDoc "4" "2025-01-01"

/-- C1: `filter_new_documents` keeps exactly the in-range, non-duplicate
documents, in input order (a document is dropped on a date-range failure,
then on a duplicate hit); with an empty registry and the four sample
documents dated 2023-12-31, 2024-01-15, 2024-06-15 and 2025-01-01 over the
range 2024-01-01..2024-12-31, exactly the second and third survive, in
order. -/
theorem filter_new_documents_date_then_duplicate :
    (∀ (st : ValidatorState) (docs : List DocumentMetadata) (s e : String),
      (filter_new_documents st docs s e).2 =
        docs.filter (fun d =>
          is_date_in_range d.date s e &&
            !(is_duplicate st.existing_documents d).1)) ∧
    filter_new_documents ⟨[], []⟩ [sampleDoc1, sampleDoc2, sampleDoc3, sampleDoc4]
        "2024-01-01" "2024-12-31" =
      (⟨[], []⟩, [sampleDoc2, sampleDoc3]) :=
  ⟨fun st docs s e => filterLoop_eq_filter st s e docs, by decide⟩

/-- C2: `is_duplicate` is the three-tier first-match-wins check: the
registry entry at the candidate's id if any; otherwise, when the candidate
carries a (truthy) checksum, the first registry value with the same checksum
and source; otherwise the first registry value with identical title, date
and source; otherwise no duplicate. -/
theorem is_duplicate_three_tier (reg : Registry) (doc : DocumentMetadata) :
    is_duplicate reg doc =
      (match regLookup reg doc.id with
       | some e => (true, some e)
       | none =>
         match (if optStrTruthy doc.md5_checksum then
                  (regValues reg).find? (fun e =>
                    e.md5_checksum == doc.md5_checksum && e.source == doc.source)
                else none) with
         | some e => (true, some e)
         | none =>
           match (regValues reg).find? (fun e =>
               e.title == doc.title && e.date == doc.date &&
                 e.source == doc.source) with
           | some e => (true, some e)
           | none => (false, none)) := by
  simp only [is_duplicate, findChecksumMatch_eq_find?, findTitleDateMatch_eq_find?]

/-- C3: `filter_new_documents` leaves the validator state (registry and
cache file alike) unchanged, and a second run on the resulting state returns
the same list. -/
theorem filter_new_documents_pure_idempotent (st : ValidatorState)
    (docs : List DocumentMetadata) (s e : String) :
    (filter_new_documents st docs s e).1 = st ∧
    (filter_new_documents ((filter_new_documents st docs s e).1) docs s e).2 =
      (filter_new_documents st docs s e).2 :=
  ⟨rfl, rfl⟩

/-- C10: `update_document` on an unregistered id changes nothing: the state
(registry and cache file) is returned as it was and the document is not
stamped. -/
theorem update_document_missing_id_noop (st : ValidatorState) (now : String)
    (doc : DocumentMetadata)
    (h : regLookup st.existing_documents doc.id = none) :
    update_document st now doc = (st, doc) := by
  simp [update_document, h]

def c10Registered : DocumentMetadata :=
  ⟨"id-A", "Registered title", "2024-02-02", "senado", "PL",
    "http://example.com/a", none, none, some "2024-02-02T10:00:00", [], 0⟩

def c10State : ValidatorState :=
  ⟨[("id-A", c10Registered)], [("id-A", c10Registered)]⟩

def c10Doc : DocumentMetadata :=
  ⟨"id-B", "Fresh title here", "2024-03-03", "camara", "PL",
    "http://example.com/b", none, none, none, [], 0⟩

theorem update_document_missing_id_noop_witness :
    regLookup c10State.existing_documents c10Doc.id = none ∧
    update_document c10State "2024-06-01T00:00:00" c10Doc = (c10State, c10Doc) :=
  ⟨by decide, update_document_missing_id_noop c10State "2024-06-01T00:00:00" c10Doc
    (by decide)⟩

/-! ## Quality-score lemmas -/

theorem ite_cons_nil_eq_nil {P : Prop} [Decidable P] (a : String) :
    ((if P then [a] else []) = []) ↔ ¬P := by
  split <;> simp_all

/-- A vanishing error list forces every basic-field guard to be false (in
particular the four point-awarding conditions of the score hold). -/
theorem guards_of_validationErrors_nil {id' title' date source url : String}
    {fs : Option Int} {md5 : Option String}
    (h : validationErrors id' title' date source url fs md5 = []) :
    (id' ≠ "" ∧ (pyStrip id'.toList).length ≠ 0) ∧
    (title' ≠ "" ∧ 5 ≤ (pyStrip title'.toList).length) ∧
    is_valid_date date = true ∧
    is_valid_url url = true := by
  simp only [validationErrors, List.append_eq_nil] at h
  obtain ⟨⟨⟨⟨⟨⟨e₁, e₂⟩, e₃⟩, _⟩, e₅⟩, _⟩, _⟩ := h
  rw [ite_cons_nil_eq_nil] at e₁ e₂ e₃ e₅
  push_neg at e₁ e₂
  exact ⟨e₁, e₂, not_not.mp e₃, not_not.mp e₅⟩

/-- With no validation errors, the four basic fields alone are worth the
full 50 points, so the score cannot drop below 50. -/
theorem quality_ge_50_of_no_errors (id' title' date source url : String)
    (fs : Option Int) (md5 sa : Option String)
    (h : validationErrors id' title' date source url fs md5 = []) :
    50 ≤ qualityScore id' title' date url fs md5 sa [] := by
  obtain ⟨⟨h1a, h1b⟩, ⟨h2a, h2b⟩, h3, h4⟩ := guards_of_validationErrors_nil h
  simp only [qualityScore]
  rw [if_pos (c := id' ≠ "" ∧ 0 < (pyStrip id'.toList).length)
      ⟨h1a, Nat.pos_of_ne_zero h1b⟩,
    if_pos (c := title' ≠ "" ∧ 5 ≤ (pyStrip title'.toList).length) ⟨h2a, h2b⟩,
    if_pos (c := is_valid_date date = true) h3,
    if_pos (c := is_valid_url url = true) h4]
  have hfs : 0 ≤ fileSizePoints fs ∧ fileSizePoints fs ≤ 10 := by
    cases fs with
    | none => simp [fileSizePoints]
    | some n => simp only [fileSizePoints]; split_ifs <;> simp
  simp only [List.length_nil, Nat.cast_zero]
  split_ifs <;> omega

/-- The `is_valid` conjunction over a list known to be the constructed
error list: the score conjunct is redundant. -/
theorem is_valid_bool_aux (id' title' date source url : String)
    (fs : Option Int) (md5 sa : Option String)
    (E : List String) (hE : E = validationErrors id' title' date source url fs md5) :
    (E.length == 0 && decide ((50:Int) ≤ qualityScore id' title' date url fs md5 sa E)) =
      E.isEmpty := by
  cases E with
  | nil =>
    have h50 := quality_ge_50_of_no_errors id' title' date source url fs md5 sa hE.symm
    simp [h50]
  | cons a as => simp

/-- C9: a constructed descriptor is valid iff its validation-error list is
empty — the score threshold in `is_valid` is redundant because zero errors
already force all four point-awarding basic-field conditions. -/
theorem is_valid_iff_no_validation_errors (id title date source dt url : String)
    (fs : Option Int) (md5 sa : Option String) :
    (mkDocumentMetadata id title date source dt url fs md5 sa).is_valid =
      (mkDocumentMetadata id title date source dt url fs md5 sa).validation_errors.isEmpty :=
  is_valid_bool_aux (sanitize_text id) (sanitize_text title) date source url fs md5 sa
    (validationErrors (sanitize_text id) (sanitize_text title) date source url fs md5) rfl

/-- A 32-character hex string passes `is_valid_md5` (its tail after the
32 characters is empty). -/
theorem is_valid_md5_of_hex32 {c : String} (h32 : c.toList.length = 32)
    (hhex : c.toList.all isHexDigit = true) : is_valid_md5 c = true := by
  have hcne : c ≠ "" := by
    intro h
    subst h
    simp at h32
  simp only [is_valid_md5, if_neg hcne]
  rw [List.take_of_length_le (le_of_eq h32), List.drop_eq_nil_of_le (le_of_eq h32),
    h32, hhex]
  rfl

/-- Score of a fully-populated, error-free descriptor, with the error list
generalized so the lemma applies to the constructor's projections. -/
theorem quality_ge_90_aux (id' title' date source url : String) (n : Int)
    (c t : String) (E : List String)
    (hE : E = validationErrors id' title' date source url (some n) (some c))
    (hnil : E = []) (hn : 0 < n) (hvc : is_valid_md5 c = true) (hcne : c ≠ "")
    (ht : t ≠ "") :
    90 ≤ qualityScore id' title' date url (some n) (some c) (some t) E := by
  subst hnil
  obtain ⟨⟨h1a, h1b⟩, ⟨h2a, h2b⟩, h3, h4⟩ := guards_of_validationErrors_nil hE.symm
  have hopt : optStrTruthy (some c) = true := by simp [optStrTruthy, hcne]
  have hsat : optStrTruthy (some t) = true := by simp [optStrTruthy, ht]
  have hfsp : fileSizePoints (some n) = 10 := by
    simp only [fileSizePoints]
    rw [if_pos ⟨hn.ne', hn⟩]
  simp only [qualityScore, hfsp]
  rw [if_pos (c := id' ≠ "" ∧ 0 < (pyStrip id'.toList).length)
      ⟨h1a, Nat.pos_of_ne_zero h1b⟩,
    if_pos (c := title' ≠ "" ∧ 5 ≤ (pyStrip title'.toList).length) ⟨h2a, h2b⟩,
    if_pos (c := is_valid_date date = true) h3,
    if_pos (c := is_valid_url url = true) h4,
    if_pos (c := optStrTruthy (some c) = true ∧
      is_valid_md5 ((some c).getD "") = true) ⟨hopt, hvc⟩,
    if_pos (c := optStrTruthy (some t) = true) hsat]
  decide

/-- C6: a descriptor with no validation errors, a positive file size, a
32-hex-character digest and a non-empty scrape timestamp scores at least 90
(in fact exactly 100: 50 base + 30 optional + 20 bonus, clamped at 100). -/
theorem quality_score_complete_descriptor_ge_90
    (id title date source dt url : String) (n : Int) (c t : String)
    (herr : (mkDocumentMetadata id title date source dt url (some n) (some c)
      (some t)).validation_errors = [])
    (hn : 0 < n) (hc32 : c.toList.length = 32)
    (hchex : c.toList.all isHexDigit = true) (ht : t ≠ "") :
    90 ≤ (mkDocumentMetadata id title date source dt url (some n) (some c)
      (some t)).quality_score :=
  quality_ge_90_aux (sanitize_text id) (sanitize_text title) date source url n c t
    (validationErrors (sanitize_text id) (sanitize_text title) date source url
      (some n) (some c))
    rfl herr hn (is_valid_md5_of_hex32 hc32 hchex)
    (fun h => by rw [h] at hc32; simp at hc32) ht

theorem quality_score_complete_descriptor_ge_90_witness :
    (mkDocumentMetadata "doc-1" "A valid long title" "2024-01-15" "camara" "PL"
      "http://example.com/d" (some 1234) (some "0123456789abcdef0123456789abcdef")
      (some "2024-01-15T10:00:00")).validation_errors = [] ∧
    90 ≤ (mkDocumentMetadata "doc-1" "A valid long title" "2024-01-15" "camara" "PL"
      "http://example.com/d" (some 1234) (some "0123456789abcdef0123456789abcdef")
      (some "2024-01-15T10:00:00")).quality_score :=
  ⟨by decide,
    quality_score_complete_descriptor_ge_90 "doc-1" "A valid long title"
      "2024-01-15" "camara" "PL" "http://example.com/d" 1234
      "0123456789abcdef0123456789abcdef" "2024-01-15T10:00:00"
      (by decide) (by decide) (by decide) (by decide) (by decide)⟩

/-- C4 fails on the code: a descriptor whose `source` is invalid (witnessed
by the accumulated error) still reaches a score of 75 ≥ 50 when the optional
fields compensate. -/
theorem quality_score_invalid_source_counterexample :
    ("Invalid source: outro" ∈ (mkDocumentMetadata "doc-1" "A valid long title"
      "2024-01-15" "outro" "PL" "http://example.com/d" (some 1234)
      (some "0123456789abcdef0123456789abcdef")
      (some "2024-01-15T10:00:00")).validation_errors) ∧
    (mkDocumentMetadata "doc-1" "A valid long title" "2024-01-15" "outro" "PL"
      "http://example.com/d" (some 1234)
      (some "0123456789abcdef0123456789abcdef")
      (some "2024-01-15T10:00:00")).quality_score = 75 := by
  decide

/-- Score bound when no optional points are awarded and some basic field is
invalid, with the error list generalized as in `quality_ge_90_aux`. -/
theorem quality_below_50_aux (id' title' date source url : String)
    (fs : Option Int) (md5 sa : Option String) (E : List String)
    (hE : E = validationErrors id' title' date source url fs md5)
    (hfs : fileSizePoints fs = 0)
    (hmd5 : ¬ (optStrTruthy md5 = true ∧ is_valid_md5 (md5.getD "") = true))
    (hsa : optStrTruthy sa = false)
    (hbasic : (id' = "" ∨ (pyStrip id'.toList).length = 0) ∨
      (title' = "" ∨ (pyStrip title'.toList).length < 5) ∨
      is_valid_date date = false ∨
      (source ≠ "camara" ∧ source ≠ "senado") ∨
      is_valid_url url = false) :
    qualityScore id' title' date url fs md5 sa E < 50 := by
  have hne : E ≠ [] := by
    rw [hE]
    intro hnil
    simp only [validationErrors, List.append_eq_nil] at hnil
    obtain ⟨⟨⟨⟨⟨⟨e₁, e₂⟩, e₃⟩, e₄⟩, e₅⟩, _⟩, _⟩ := hnil
    rw [ite_cons_nil_eq_nil] at e₁ e₂ e₃ e₄ e₅
    rcases hbasic with h | h | h | h | h
    exacts [e₁ h, e₂ h, e₃ (by simp [h]), e₄ h, e₅ (by simp [h])]
  have hlen : 1 ≤ E.length := List.length_pos.mpr hne
  have hlenZ : (1 : Int) ≤ (E.length : Int) := by exact_mod_cast hlen
  have hsa' : ¬ optStrTruthy sa = true := by simp [hsa]
  simp only [qualityScore, hfs, if_neg hmd5, if_neg hsa']
  split_ifs <;> omega

/-- C4 amended: when no optional points are awarded (no positive file size,
no truthy valid digest, no truthy scrape timestamp), a failure of any of the
five basic-field rules (empty sanitized id, sanitized title shorter than 5,
invalid date, unknown source, invalid URL) keeps the score below the
registrable threshold of 50. -/
theorem quality_score_below_50_basic_invalid
    (id title date source dt url : String) (fs : Option Int)
    (md5 sa : Option String)
    (hfs : fileSizePoints fs = 0)
    (hmd5 : ¬ (optStrTruthy md5 = true ∧ is_valid_md5 (md5.getD "") = true))
    (hsa : optStrTruthy sa = false)
    (hbasic : (sanitize_text id = "" ∨ (pyStrip (sanitize_text id).toList).length = 0) ∨
      (sanitize_text title = "" ∨ (pyStrip (sanitize_text title).toList).length < 5) ∨
      is_valid_date date = false ∨
      (source ≠ "camara" ∧ source ≠ "senado") ∨
      is_valid_url url = false) :
    (mkDocumentMetadata id title date source dt url fs md5 sa).quality_score < 50 :=
  quality_below_50_aux (sanitize_text id) (sanitize_text title) date source url
    fs md5 sa
    (validationErrors (sanitize_text id) (sanitize_text title) date source url fs md5)
    rfl hfs hmd5 hsa hbasic

theorem quality_score_below_50_basic_invalid_witness :
    (mkDocumentMetadata "doc-1" "A valid long title" "2024-01-15" "outro" "PL"
      "http://example.com/d" none none none).quality_score < 50 :=
  quality_score_below_50_basic_invalid "doc-1" "A valid long title" "2024-01-15"
    "outro" "PL" "http://example.com/d" none none none
    (by decide) (by decide) (by decide)
    (Or.inr (Or.inr (Or.inr (Or.inl (by decide)))))

/-! ## Content-validation theorems -/

/-- Appending a non-whitespace byte keeps `dropWhile` from crossing it. -/
theorem dropWhile_append_singleton (p : Nat → Bool) (b : Nat) (hb : p b = false) :
    ∀ l : List Nat, (l ++ [b]).dropWhile p = l.dropWhile p ++ [b] := by
  intro l
  induction l with
  | nil => simp [List.dropWhile, hb]
  | cons a t ih =>
    simp only [List.cons_append, List.dropWhile]
    cases h : p a <;> simp [h, ih]

/-- `bytes.strip()` of a list starting with a non-whitespace byte starts
with that byte. -/
theorem bytesStrip_cons_of_not_ws (b : Nat) (l : List Nat)
    (hb : isAsciiWSByte b = false) :
    ∃ t, bytesStrip (b :: l) = b :: t := by
  unfold bytesStrip
  rw [List.dropWhile_cons_of_neg (by simp [hb]), List.reverse_cons,
    dropWhile_append_singleton _ _ hb]
  exact ⟨(l.reverse.dropWhile isAsciiWSByte).reverse, by simp⟩

/-- C5: `validate_document_content` rejects empty content; rejects any
content whose length differs from a supplied expected size; rejects
PDF-signature content with no `%%EOF` in the trailing 1024 bytes; accepts
the minimal JSON object `b"{}"`; and rejects content that looks like JSON
(strips to a leading `{` or `[`) but does not load as JSON. -/
theorem validate_document_content_spec :
    (∀ exp, validate_document_content [] exp = false) ∧
    (∀ (c : List Nat) (n : Nat), c.length ≠ n →
      validate_document_content c (some n) = false) ∧
    (∀ (c : List Nat) (exp : Option Nat), pdfSig.isPrefixOf c = true →
      containsSub eofMarker (lastBytes 1024 c) = false →
      validate_document_content c exp = false) ∧
    validate_document_content [0x7b, 0x7d] none = true ∧
    (∀ c : List Nat,
      ([0x7b].isPrefixOf (bytesStrip c) = true ∨
        [0x5b].isPrefixOf (bytesStrip c) = true) →
      jsonLoadsBytes c = false → validate_document_content c none = false) := by
  refine ⟨fun exp => rfl, ?_, ?_, by decide, ?_⟩
  · intro c n h
    cases hc : c.isEmpty <;> simp [validate_document_content, hc, h]
  · intro c exp hpdf heof
    have hne : c.isEmpty = false := by
      cases c with
      | nil => simp [pdfSig, List.isPrefixOf] at hpdf
      | cons a t => rfl
    cases exp with
    | none => simp [validate_document_content, hne, hpdf, heof]
    | some n =>
      by_cases hsz : (c.length != n) = true
      · simp [validate_document_content, hne, hsz]
      · simp [validate_document_content, hne, hsz, hpdf, heof]
  · intro c hjson hload
    have hne : c.isEmpty = false := by
      cases c with
      | nil => simp [bytesStrip, List.isPrefixOf] at hjson
      | cons a t => rfl
    have hpdf : pdfSig.isPrefixOf c = false := by
      cases c with
      | nil => rfl
      | cons a t =>
        by_cases ha : a = 0x25
        · subst ha
          obtain ⟨u, hu⟩ := bytesStrip_cons_of_not_ws 0x25 t (by decide)
          rw [hu] at hjson
          rcases hjson with h | h <;> simp [List.isPrefixOf] at h
        · simp only [pdfSig, List.isPrefixOf, List.isPrefixOf_cons₂]
          simp [List.isPrefixOf]
          exact fun h => (ha h.symm).elim
    have hcond : ([0x7b].isPrefixOf (bytesStrip c) ||
        [0x5b].isPrefixOf (bytesStrip c)) = true := by
      rcases hjson with h | h <;> simp [h]
    simp [validate_document_content, hne, hpdf, hcond, hload]

theorem validate_document_content_spec_witness :
    validate_document_content [0x41] (some 5) = false ∧
    validate_document_content pdfSig none = false ∧
    validate_document_content [0x7b] none = false :=
  ⟨validate_document_content_spec.2.1 [0x41] 5 (by decide),
   validate_document_content_spec.2.2.1 pdfSig none (by decide) (by decide),
   validate_document_content_spec.2.2.2.2 [0x7b] (Or.inl (by decide)) (by decide)⟩

/-! ## Store-factory theorems -/

/-- C7 as stated fails on the code: with the credentials file missing,
`'real'` mode fails with the credentials exception re-raised unchanged, not
with the "not available" `ImportError`. -/
theorem create_drive_manager_real_missing_credentials :
    create_drive_manager ⟨"mock", false, false⟩ (some "real") =
      .error (.credentialsNotFound "Google Drive credentials file not found") :=
  rfl

/-- C7 amended: `'real'` mode always fails — with the "not available" error
when the credentials file exists, with the credentials error otherwise — and
`'auto'` mode always succeeds, falling back to the mock manager. -/
theorem create_drive_manager_real_auto_modes (cfg : FactoryConfig) :
    create_drive_manager cfg (some "real") =
      .error (if cfg.credentials_file_exists then
          .notAvailable ("Real Drive manager not available: " ++
            "RealDriveManager not yet implemented - this is expected in Phase 1")
        else .credentialsNotFound "Google Drive credentials file not found") ∧
    create_drive_manager cfg (some "auto") = .ok .mock := by
  obtain ⟨am, ce, fi⟩ := cfg
  cases ce <;> exact ⟨rfl, rfl⟩

/-! ## Mock-store round-trip -/

/-- `file_exists`'s scan skips every entry whose name differs. -/
theorem findByNameFolder_append (filename f : String)
    (l₁ l₂ : List (String × MockFileRecord))
    (h : ∀ p ∈ l₁, p.2.info.name ≠ filename) :
    findByNameFolder filename f (l₁ ++ l₂) = findByNameFolder filename f l₂ := by
  induction l₁ with
  | nil => rfl
  | cons a t ih =>
    simp only [List.cons_append, findByNameFolder]
    rw [if_neg (fun hc => h a (by simp) hc.1)]
    exact ih fun p hp => h p (by simp [hp])

/-- C8: after uploading content under a fresh name into a (non-empty-id)
folder, `file_exists` with that exact name and folder returns the uploaded
handle, whose name, size and digest are those of the uploaded object, while
`file_exists` with the same name and any other folder id returns `none`. -/
theorem upload_file_exists_roundtrip (st : MockDriveState) (now : String)
    (content : List Nat) (filename folder : String) (mime : Option String)
    (hfresh : ∀ p ∈ st.files, p.2.info.name ≠ filename)
    (hfolder : folder ≠ "") :
    file_exists (upload_file st now content filename (some folder) mime).1
        filename (some folder) =
      some (upload_file st now content filename (some folder) mime).2 ∧
    (upload_file st now content filename (some folder) mime).2.name = filename ∧
    (upload_file st now content filename (some folder) mime).2.size =
      content.length ∧
    (upload_file st now content filename (some folder) mime).2.md5_checksum =
      md5Hex content ∧
    (∀ folder', folder' ≠ folder → folder' ≠ "" →
      file_exists (upload_file st now content filename (some folder) mime).1
        filename (some folder') = none) := by
  have hfo : folderOrRoot (some folder) = folder := by simp [folderOrRoot, hfolder]
  refine ⟨?_, rfl, rfl, rfl, ?_⟩
  · simp only [file_exists, upload_file, hfo]
    rw [findByNameFolder_append filename folder st.files _ hfresh]
    simp [findByNameFolder, hfo]
  · intro folder' h1 h2
    have hfo' : folderOrRoot (some folder') = folder' := by
      simp [folderOrRoot, h2]
    simp only [file_exists, upload_file, hfo']
    rw [findByNameFolder_append filename folder' st.files _ hfresh]
    simp [findByNameFolder, hfo]
    exact fun hc => h1 hc.symm

theorem upload_file_exists_roundtrip_witness :
    file_exists (upload_file MockDriveState.initial "2024-01-01T00:00:00"
        [0x61, 0x62] "doc.pdf" (some "documentos_camara") none).1
      "doc.pdf" (some "documentos_camara") =
      some (upload_file MockDriveState.initial "2024-01-01T00:00:00"
        [0x61, 0x62] "doc.pdf" (some "documentos_camara") none).2 ∧
    file_exists (upload_file MockDriveState.initial "2024-01-01T00:00:00"
        [0x61, 0x62] "doc.pdf" (some "documentos_camara") none).1
      "doc.pdf" (some "documentos_senado") = none := by
  have h := upload_file_exists_roundtrip MockDriveState.initial
    "2024-01-01T00:00:00" [0x61, 0x62] "doc.pdf" "documentos_camara" none
    (by simp [MockDriveState.initial]) (by decide)
  exact ⟨h.1, h.2.2.2.2 "documentos_senado" (by decide) (by decide)⟩

end ScrapingBrasil
